import Mathlib

/-!
Verification of the configuration loader `config.py` of the buildAxion
repository.  The Python module is shallowly embedded: the pure helpers
`_to_bool` and `_to_int` become Lean functions on `String`, the dataclass
`BotConfig` becomes a structure, and `BotConfig.load` becomes a function
over an explicit context (file-system predicate, optional dotenv parsing
function, process environment, CPU count) returning `Except Unit BotConfig`,
where `Except.error` models an uncaught Python exception.  Python strings
are modelled over their character lists; `str.strip`, `str.lower` and
`int(...)` are modelled for ASCII input.
-/

/-- Whitespace characters recognised by Python's `str.strip()` (ASCII part). -/
def pyWS (c : Char) : Bool :=
  c = ' ' || c = '\t' || c = '\n' || c = '\r' || c = '\x0b' || c = '\x0c'

/-- Model of Python `str.strip()` on a character list: drop whitespace from
both ends. -/
def pyStripList (l : List Char) : List Char :=
  ((l.dropWhile pyWS).reverse.dropWhile pyWS).reverse

/-- Model of Python `str.strip()`. -/
def pyStrip (s : String) : String :=
  ⟨pyStripList s.data⟩

/-- Model of Python `str.lower()` (ASCII case folding). -/
def pyLower (s : String) : String :=
  ⟨s.data.map Char.toLower⟩

/-- Numeric value of a decimal digit character. -/
def digitVal (c : Char) : Nat :=
  c.toNat - 48

/-- Continuation of the digit-part scanner of Python `int(...)`: `acc` is the
value of the digits already read; a single underscore is allowed between two
digits (Python's numeric-literal grammar). -/
def goDigits (acc : Nat) : List Char → Option Nat
  | [] => some acc
  | c :: rest =>
    if c = '_' then
      match rest with
      | [] => none
      | c2 :: rest2 =>
        if c2.isDigit then goDigits (10 * acc + digitVal c2) rest2 else none
    else if c.isDigit then goDigits (10 * acc + digitVal c) rest
    else none

/-- Digit part of Python `int(...)`: one or more decimal digits, single
underscores allowed between digits. -/
def parseDigitPart : List Char → Option Nat
  | [] => none
  | c :: rest => if c.isDigit then goDigits (digitVal c) rest else none

/-- Model of Python's built-in `int(s)` on a string (base 10, ASCII): strip
whitespace, optional sign, then a digit part.  `none` models the
`ValueError` that `int` raises on anything else. -/
def pyInt (s : String) : Option Int :=
  match pyStripList s.data with
  | [] => none
  | c :: rest =>
    if c = '+' then (parseDigitPart rest).map (fun n => (n : Int))
    else if c = '-' then (parseDigitPart rest).map (fun n => -(n : Int))
    else (parseDigitPart (c :: rest)).map (fun n => (n : Int))

/-- Embedding of `_to_bool` from `config.py`: `None` gives the default, else
strip and lower-case the value and compare against the fixed truthy and
falsy sets; anything else gives the default. -/
def _to_bool (val : Option String) (default : Bool) : Bool :=
  match val with
  | none => default
  | some v =>
    let s := pyLower (pyStrip v)
    if s ∈ ["1", "true", "yes", "y", "on"] then true
    else if s ∈ ["0", "false", "no", "n", "off"] then false
    else default

/-- Embedding of `_to_int` from `config.py`: `None` gives the default, else
`int(str(val).strip())` with the `ValueError` caught and turned into the
default. -/
def _to_int (val : Option String) (default : Int) : Int :=
  match val with
  | none => default
  | some v =>
    match pyInt (pyStrip v) with
    | some n => n
    | none => default

/-- Embedding of the `BotConfig` dataclass of `config.py`: one field per
dataclass field, with the declared Python types (`bool`, unbounded `int`
modelled by `Int`, `str` modelled by `String`). -/
structure BotConfig where
  RUN_ENV_SETUP : Bool
  RUN_SOURCE_SYNC : Bool
  RUN_BUILD : Bool
  DRY_RUN : Bool
  AXION_REMOTE_URL : String
  AXION_BRANCH : String
  WORKDIR : String
  THREADS : Int
  WITH_MIUI_CAM : Bool
  APPLY_WPA_PATCHES : Bool
  BUILD_VOLUME_DEVICE : String
  USE_SAFE_BUILD : Bool
  DEVICE : String
  VARIANT : String
  ROM_TYPE : String
  CONFIG_OFFICIAL_FLAG : String
  CONFIG_CHATID : String
  CONFIG_BOT_TOKEN : String
  CONFIG_ERROR_CHATID : String
  RCLONE_REMOTE : String
  RCLONE_FOLDER : String
  PIXELDRAIN_API_KEY : String
  POWEROFF : Bool
  UPLOAD_OTA_JSON : Bool
  OTA_JSON_PATH : String
  PIN_SUCCESS_MESSAGE : Bool
  ENV_FILE : String
  deriving Repr, DecidableEq

/-- Default for the `THREADS` class attribute: `os.cpu_count() or 8` — the
Python `or` takes 8 when `cpu_count()` is `None` (or the falsy 0). -/
def cpuDefault (cpuCount : Option Nat) : Int :=
  match cpuCount with
  | none => 8
  | some n => if n = 0 then 8 else (n : Int)

/-- The class-attribute defaults of the `BotConfig` dataclass, as declared in
`config.py` lines 43-79, parametrised by the host CPU count. -/
def BotConfig.default (cpuCount : Option Nat) : BotConfig where
  RUN_ENV_SETUP := true
  RUN_SOURCE_SYNC := true
  RUN_BUILD := false
  DRY_RUN := false
  AXION_REMOTE_URL := "https://github.com/AxionAOSP/android.git"
  AXION_BRANCH := "lineage-23.0"
  WORKDIR := "axionos"
  THREADS := cpuDefault cpuCount
  WITH_MIUI_CAM := false
  APPLY_WPA_PATCHES := false
  BUILD_VOLUME_DEVICE := ""
  USE_SAFE_BUILD := true
  DEVICE := "xaga"
  VARIANT := "userdebug"
  ROM_TYPE := "axion-pico"
  CONFIG_OFFICIAL_FLAG := ""
  CONFIG_CHATID := ""
  CONFIG_BOT_TOKEN := ""
  CONFIG_ERROR_CHATID := ""
  RCLONE_REMOTE := ""
  RCLONE_FOLDER := ""
  PIXELDRAIN_API_KEY := ""
  POWEROFF := false
  UPLOAD_OTA_JSON := true
  OTA_JSON_PATH := "vendor/ota/your_device_name.json"
  PIN_SUCCESS_MESSAGE := true
  ENV_FILE := ".env"

/-- Lookup in a Python dict represented by its insertion sequence: the last
inserted binding for a key wins, as in `dict.get`. -/
def dictGet : List (String × String) → String → Option String
  | [], _ => none
  | kv :: t, k =>
    match dictGet t k with
    | some v => some v
    | none => if kv.1 = k then some kv.2 else none

/-- Functional update of a string-keyed mapping, modelling `d[k] = v`. -/
def updD (m : String → Option String) (k v : String) : String → Option String :=
  fun x => if x = k then some v else m x

/-- The dict built by `merged.update(...)` from the comprehension over
`file_vals.items()` that keeps only entries whose value `is not None`,
starting from the empty dict: insert the file entries in order, skipping
entries whose parsed value is `None`. -/
def fileMap (file_vals : List (String × Option String)) : String → Option String :=
  file_vals.foldl
    (fun m kv =>
      match kv.2 with
      | some v => updD m kv.1 v
      | none => m)
    (fun _ => none)

/-- The loop `for k, v in os.environ.items(): merged[k] = v`: overlay every
environment binding, in order, onto the mapping `m`. -/
def overlayEnv (m : String → Option String) (environ : List (String × String)) :
    String → Option String :=
  environ.foldl (fun acc kv => updD acc kv.1 kv.2) m

/-- Python `a or b` on an optional string: `a` when present and non-empty
(truthy), else `b`. -/
def pyOrS (a : Option String) (b : String) : String :=
  match a with
  | none => b
  | some s => if s = "" then b else s

/-- The external context `BotConfig.load` runs in: whether the optional
`python-dotenv` import succeeded, which paths name existing files, the
result of `dotenv_values` on a path (`Except.error` models the parser
raising), the process environment as an insertion sequence with distinct
keys, and `os.cpu_count()`. -/
structure LoadCtx where
  dotenvAvailable : Bool
  isfile : String → Bool
  dotenv_values : String → Except Unit (List (String × Option String))
  environ : List (String × String)
  cpuCount : Option Nat

/-- Embedding of `BotConfig.load`.  The resolved path is
`env_file or os.environ.get("ENV_FILE") or ".env"`, replaced by
`".env_xaga"` when it does not name a file but `".env_xaga"` does; the file
layer is parsed only when the parser is available and the file exists, with
a parse exception caught into an empty layer; the process environment is
overlaid last; every field is then coerced from the merged mapping.
`Except.error` models an uncaught Python exception escaping `load`. -/
def BotConfig.load (ctx : LoadCtx) (env_file : Option String) : Except Unit BotConfig :=
  let env_path0 := pyOrS env_file (pyOrS (dictGet ctx.environ ("ENV_FILE")) (".env"))
  let env_path :=
    if !ctx.isfile env_path0 && ctx.isfile (".env_xaga") then ".env_xaga" else env_path0
  let fileLayerE : Except Unit (String → Option String) :=
    if ctx.dotenvAvailable && ctx.isfile env_path then
      match Except.map fileMap (ctx.dotenv_values env_path) with
      | Except.ok m => Except.ok m
      | Except.error _ => Except.ok (fun _ => none)
    else Except.ok (fun _ => none)
  match fileLayerE with
  | Except.error e => Except.error e
  | Except.ok fileLayer =>
    let merged := overlayEnv fileLayer ctx.environ
    let dflt := BotConfig.default ctx.cpuCount
    Except.ok
      { RUN_ENV_SETUP := _to_bool (merged ("RUN_ENV_SETUP")) true
        RUN_SOURCE_SYNC := _to_bool (merged ("RUN_SOURCE_SYNC")) true
        RUN_BUILD := _to_bool (merged ("RUN_BUILD")) false
        DRY_RUN := _to_bool (merged ("DRY_RUN")) false
        AXION_REMOTE_URL := (merged ("AXION_REMOTE_URL")).getD dflt.AXION_REMOTE_URL
        AXION_BRANCH := (merged ("AXION_BRANCH")).getD dflt.AXION_BRANCH
        WORKDIR := (merged ("WORKDIR")).getD dflt.WORKDIR
        THREADS := _to_int (merged ("THREADS")) dflt.THREADS
        WITH_MIUI_CAM := _to_bool (merged ("WITH_MIUI_CAM")) false
        APPLY_WPA_PATCHES := _to_bool (merged ("APPLY_WPA_PATCHES")) false
        BUILD_VOLUME_DEVICE := (merged ("BUILD_VOLUME_DEVICE")).getD dflt.BUILD_VOLUME_DEVICE
        USE_SAFE_BUILD := _to_bool (merged ("USE_SAFE_BUILD")) true
        DEVICE := (merged ("DEVICE")).getD dflt.DEVICE
        VARIANT := (merged ("VARIANT")).getD dflt.VARIANT
        ROM_TYPE := (merged ("ROM_TYPE")).getD dflt.ROM_TYPE
        CONFIG_OFFICIAL_FLAG := (merged ("CONFIG_OFFICIAL_FLAG")).getD dflt.CONFIG_OFFICIAL_FLAG
        CONFIG_CHATID := (merged ("CONFIG_CHATID")).getD dflt.CONFIG_CHATID
        CONFIG_BOT_TOKEN := (merged ("CONFIG_BOT_TOKEN")).getD dflt.CONFIG_BOT_TOKEN
        CONFIG_ERROR_CHATID := (merged ("CONFIG_ERROR_CHATID")).getD dflt.CONFIG_ERROR_CHATID
        RCLONE_REMOTE := (merged ("RCLONE_REMOTE")).getD dflt.RCLONE_REMOTE
        RCLONE_FOLDER := (merged ("RCLONE_FOLDER")).getD dflt.RCLONE_FOLDER
        PIXELDRAIN_API_KEY := (merged ("PIXELDRAIN_API_KEY")).getD dflt.PIXELDRAIN_API_KEY
        POWEROFF := _to_bool (merged ("POWEROFF")) false
        UPLOAD_OTA_JSON := _to_bool (merged ("UPLOAD_OTA_JSON")) true
        OTA_JSON_PATH := (merged ("OTA_JSON_PATH")).getD dflt.OTA_JSON_PATH
        PIN_SUCCESS_MESSAGE := _to_bool (merged ("PIN_SUCCESS_MESSAGE")) true
        ENV_FILE := env_path }

/-- Embedding of `BotConfig.to_script_env`: the dict literal of `config.py`
lines 136-144, as its insertion sequence.  `Int.repr` models Python
`str(self.THREADS)` (decimal representation). -/
def BotConfig.to_script_env (c : BotConfig) : List (String × String) :=
  [("AXION_REMOTE_URL", c.AXION_REMOTE_URL),
   ("AXION_BRANCH", c.AXION_BRANCH),
   ("WORKDIR", c.WORKDIR),
   ("THREADS", Int.repr c.THREADS),
   ("WITH_MIUI_CAM", if c.WITH_MIUI_CAM then "true" else "false"),
   ("APPLY_WPA_PATCHES", if c.APPLY_WPA_PATCHES then "true" else "false"),
   ("BUILD_VOLUME_DEVICE", c.BUILD_VOLUME_DEVICE)]

/-- A Python value of one of the three field types of `BotConfig`; `asdict`
produces these.  There is deliberately no constructor for `None`. -/
inductive PyVal where
  | pyB : Bool → PyVal
  | pyI : Int → PyVal
  | pyS : String → PyVal
  deriving Repr, DecidableEq

/-- Embedding of `BotConfig.as_dict` (`dataclasses.asdict`): every field, in
declaration order, paired with its value. -/
def BotConfig.as_dict (c : BotConfig) : List (String × PyVal) :=
  [("RUN_ENV_SETUP", PyVal.pyB c.RUN_ENV_SETUP),
   ("RUN_SOURCE_SYNC", PyVal.pyB c.RUN_SOURCE_SYNC),
   ("RUN_BUILD", PyVal.pyB c.RUN_BUILD),
   ("DRY_RUN", PyVal.pyB c.DRY_RUN),
   ("AXION_REMOTE_URL", PyVal.pyS c.AXION_REMOTE_URL),
   ("AXION_BRANCH", PyVal.pyS c.AXION_BRANCH),
   ("WORKDIR", PyVal.pyS c.WORKDIR),
   ("THREADS", PyVal.pyI c.THREADS),
   ("WITH_MIUI_CAM", PyVal.pyB c.WITH_MIUI_CAM),
   ("APPLY_WPA_PATCHES", PyVal.pyB c.APPLY_WPA_PATCHES),
   ("BUILD_VOLUME_DEVICE", PyVal.pyS c.BUILD_VOLUME_DEVICE),
   ("USE_SAFE_BUILD", PyVal.pyB c.USE_SAFE_BUILD),
   ("DEVICE", PyVal.pyS c.DEVICE),
   ("VARIANT", PyVal.pyS c.VARIANT),
   ("ROM_TYPE", PyVal.pyS c.ROM_TYPE),
   ("CONFIG_OFFICIAL_FLAG", PyVal.pyS c.CONFIG_OFFICIAL_FLAG),
   ("CONFIG_CHATID", PyVal.pyS c.CONFIG_CHATID),
   ("CONFIG_BOT_TOKEN", PyVal.pyS c.CONFIG_BOT_TOKEN),
   ("CONFIG_ERROR_CHATID", PyVal.pyS c.CONFIG_ERROR_CHATID),
   ("RCLONE_REMOTE", PyVal.pyS c.RCLONE_REMOTE),
   ("RCLONE_FOLDER", PyVal.pyS c.RCLONE_FOLDER),
   ("PIXELDRAIN_API_KEY", PyVal.pyS c.PIXELDRAIN_API_KEY),
   ("POWEROFF", PyVal.pyB c.POWEROFF),
   ("UPLOAD_OTA_JSON", PyVal.pyB c.UPLOAD_OTA_JSON),
   ("OTA_JSON_PATH", PyVal.pyS c.OTA_JSON_PATH),
   ("PIN_SUCCESS_MESSAGE", PyVal.pyB c.PIN_SUCCESS_MESSAGE),
   ("ENV_FILE", PyVal.pyS c.ENV_FILE)]

/-- State-passing embedding of the method call `cfg.to_script_env()`: the
result paired with the receiver as it is after the call.  The method body
contains no assignment to `self`, so the receiver is returned unchanged. -/
def BotConfig.to_script_envS (c : BotConfig) : List (String × String) × BotConfig :=
  (c.to_script_env, c)

/-- State-passing embedding of the method call `cfg.as_dict()`. -/
def BotConfig.as_dictS (c : BotConfig) : List (String × PyVal) × BotConfig :=
  (c.as_dict, c)

/-- The rendering the spec prescribes for the export adapter: booleans as the
exact strings "true"/"false". -/
def specBoolStr (b : Bool) : String :=
  if b then "true" else "false"

/-- The export-adapter mapping as the spec describes it: exactly the seven
named fields, strings verbatim, booleans via `specBoolStr`, the thread count
as its decimal string representation. -/
def scriptEnvSpec (c : BotConfig) : List (String × String) :=
  [("AXION_REMOTE_URL", c.AXION_REMOTE_URL),
   ("AXION_BRANCH", c.AXION_BRANCH),
   ("WORKDIR", c.WORKDIR),
   ("THREADS", Int.repr c.THREADS),
   ("WITH_MIUI_CAM", specBoolStr c.WITH_MIUI_CAM),
   ("APPLY_WPA_PATCHES", specBoolStr c.APPLY_WPA_PATCHES),
   ("BUILD_VOLUME_DEVICE", c.BUILD_VOLUME_DEVICE)]

/-- The path-resolution rule exactly as the claim states it: the explicit
argument if given, else the `ENV_FILE` environment variable, else the
default filename `.env`; only when that default file is absent and
`.env_xaga` exists is the secondary file used instead. -/
def claimedEnvPath (env_file : Option String) (environ : List (String × String))
    (isfile : String → Bool) : String :=
  match env_file with
  | some p => p
  | none =>
    match dictGet environ ("ENV_FILE") with
    | some p => p
    | none => if !isfile (".env") && isfile (".env_xaga") then ".env_xaga" else ".env"

/-- The path-resolution rule as amended: the explicit argument if given and
non-empty, else the `ENV_FILE` environment variable if set and non-empty,
else `.env`; then, whatever its origin, if the resolved path does not name
an existing file and `.env_xaga` does exist, `.env_xaga` is used instead. -/
def amendedEnvPath (env_file : Option String) (environ : List (String × String))
    (isfile : String → Bool) : String :=
  let fromEnviron : String :=
    match dictGet environ ("ENV_FILE") with
    | some q => if q = "" then ".env" else q
    | none => ".env"
  let base : String :=
    match env_file with
    | some p => if p = "" then fromEnviron else p
    | none => fromEnviron
  if !isfile base && isfile (".env_xaga") then ".env_xaga" else base

/-- The effective dotenv path `load` computes, read off from the source:
`env_file or os.environ.get("ENV_FILE") or ".env"`, then the `.env_xaga`
replacement when that path is not a file but `.env_xaga` is. -/
def envPathOf (ctx : LoadCtx) (env_file : Option String) : String :=
  let p0 := pyOrS env_file (pyOrS (dictGet ctx.environ ("ENV_FILE")) (".env"))
  if !ctx.isfile p0 && ctx.isfile (".env_xaga") then ".env_xaga" else p0

/-- The `ENV_FILE` field of the record `load` returns, when it returns one. -/
def loadedEnvFile (ctx : LoadCtx) (env_file : Option String) : Option String :=
  match BotConfig.load ctx env_file with
  | Except.ok r => some r.ENV_FILE
  | Except.error _ => none

/-- A file system on which no path names a file. -/
def fsNone : String → Bool :=
  fun _ => false

/-- A file system on which exactly `.env_xaga` names a file. -/
def fsXagaOnly : String → Bool :=
  fun p => p = ".env_xaga"

/-- A load context with no file present, an empty environment, and 4 CPUs. -/
def ctxNoSources : LoadCtx where
  dotenvAvailable := true
  isfile := fsNone
  dotenv_values := fun _ => Except.ok []
  environ := []
  cpuCount := some 4

/-- A load context where only `.env_xaga` exists, it parses to the empty
mapping, the environment is empty, and the host has 4 CPUs. -/
def ctxXagaOnly : LoadCtx where
  dotenvAvailable := true
  isfile := fsXagaOnly
  dotenv_values := fun _ => Except.ok []
  environ := []
  cpuCount := some 4

example : _to_bool (some (" TRUE ")) false = true := by decide
example : _to_bool (some ("maybe")) true = true := by decide
example : _to_bool (some ("off")) true = false := by decide
example : _to_int (some (" 42 ")) 0 = 42 := by decide
example : _to_int (some ("-7")) 0 = -7 := by decide
example : _to_int (some ("1_0")) 0 = 10 := by decide
example : _to_int (some ("1__0")) 5 = 5 := by decide
example : _to_int (some ("abc")) 3 = 3 := by decide
example : _to_int none 3 = 3 := by decide
example : BotConfig.load ctxNoSources none = Except.ok (BotConfig.default (some 4)) := by rfl
example : loadedEnvFile ctxXagaOnly (some ("")) = some (".env_xaga") := by rfl
example : loadedEnvFile ctxXagaOnly (some ("custom.env")) = some (".env_xaga") := by rfl
example : claimedEnvPath (some ("")) [] fsXagaOnly = "" := by rfl
example :
    overlayEnv (fileMap [(("WORKDIR"), some ("filedir"))]) [(("WORKDIR"), ("envdir"))]
      ("WORKDIR") = some ("envdir") := by rfl

theorem digit_not_ws (c : Char) (h : c.isDigit = true) : pyWS c = false := by
  cases hw : pyWS c
  · rfl
  · exfalso
    unfold pyWS at hw
    simp only [Bool.or_eq_true, decide_eq_true_eq] at hw
    rcases hw with ((((h1 | h1) | h1) | h1) | h1) | h1 <;> subst h1 <;> exact absurd h (by decide)

theorem dropWhile_eq_self_of_none (p : Char → Bool) (l : List Char)
    (h : ∀ c ∈ l, p c = false) : l.dropWhile p = l := by
  cases l with
  | nil => rfl
  | cons c t =>
    rw [List.dropWhile_cons, if_neg]
    rw [h c (List.mem_cons_self c t)]
    simp

theorem pyStripList_eq_self (l : List Char) (h : ∀ c ∈ l, pyWS c = false) :
    pyStripList l = l := by
  unfold pyStripList
  rw [dropWhile_eq_self_of_none pyWS l h]
  rw [dropWhile_eq_self_of_none pyWS l.reverse (fun c hc => h c (List.mem_reverse.mp hc))]
  exact List.reverse_reverse l

theorem pyStripList_subset (l : List Char) (c : Char) (h : c ∈ pyStripList l) : c ∈ l := by
  unfold pyStripList at h
  rw [List.mem_reverse] at h
  have h2 := List.dropWhile_subset (l := (l.dropWhile pyWS).reverse) pyWS h
  rw [List.mem_reverse] at h2
  exact List.dropWhile_subset pyWS h2

theorem goDigits_all_digits (l : List Char) (h : ∀ c ∈ l, c.isDigit = true) (acc : Nat) :
    goDigits acc l = some (l.foldl (fun a c => 10 * a + digitVal c) acc) := by
  induction l generalizing acc with
  | nil => rfl
  | cons c t ih =>
    have hc : c.isDigit = true := h c (List.mem_cons_self c t)
    have hcu : ¬(c = '_') := by
      intro e
      subst e
      exact absurd hc (by decide)
    rw [goDigits.eq_def]
    dsimp only
    rw [if_neg hcu, if_pos hc, List.foldl_cons]
    exact ih (fun x hx => h x (List.mem_cons_of_mem c hx)) (10 * acc + digitVal c)

theorem pyInt_all_digits (l : List Char) (hne : l ≠ [])
    (h : ∀ c ∈ l, c.isDigit = true) :
    pyInt ⟨l⟩ = some ((l.foldl (fun a c => 10 * a + digitVal c) 0 : Nat) : Int) := by
  have hall : ∀ c ∈ l, pyWS c = false := fun c hc => digit_not_ws c (h c hc)
  have hstrip : pyStripList l = l := pyStripList_eq_self l hall
  unfold pyInt
  simp only [String.data]
  rw [hstrip]
  cases l with
  | nil => exact absurd rfl hne
  | cons c t =>
    have hc : c.isDigit = true := h c (List.mem_cons_self c t)
    have hplus : ¬(c = '+') := by
      intro e
      subst e
      exact absurd hc (by decide)
    have hminus : ¬(c = '-') := by
      intro e
      subst e
      exact absurd hc (by decide)
    dsimp only
    rw [if_neg hplus, if_neg hminus]
    rw [parseDigitPart.eq_def]
    dsimp only
    rw [if_pos hc]
    rw [goDigits_all_digits t (fun x hx => h x (List.mem_cons_of_mem c hx)) (digitVal c)]
    simp [List.foldl_cons]

theorem parseDigitPart_no_digit (l : List Char) (h : ∀ c ∈ l, c.isDigit = false) :
    parseDigitPart l = none := by
  cases l with
  | nil => rfl
  | cons c t =>
    rw [parseDigitPart.eq_def]
    dsimp only
    rw [if_neg]
    rw [h c (List.mem_cons_self c t)]
    simp

theorem pyInt_no_digits (l : List Char) (h : ∀ c ∈ l, c.isDigit = false) :
    pyInt ⟨l⟩ = none := by
  have hsub : ∀ c ∈ pyStripList l, c.isDigit = false :=
    fun c hc => h c (pyStripList_subset l c hc)
  unfold pyInt
  simp only [String.data]
  cases hs : pyStripList l with
  | nil => rfl
  | cons c t =>
    have ht : ∀ x ∈ t, x.isDigit = false := by
      intro x hx
      exact hsub x (hs ▸ List.mem_cons_of_mem c hx)
    dsimp only
    by_cases hp : c = '+'
    · rw [if_pos hp, parseDigitPart_no_digit t ht]
      rfl
    · rw [if_neg hp]
      by_cases hm : c = '-'
      · rw [if_pos hm, parseDigitPart_no_digit t ht]
        rfl
      · rw [if_neg hm]
        rw [parseDigitPart_no_digit (c :: t)]
        · rfl
        · intro x hx
          exact hsub x (hs ▸ hx)

theorem overlay_lookup (l : List (String × String)) (m : String → Option String) (k : String) :
    overlayEnv m l k =
      match dictGet l k with
      | some v => some v
      | none => m k := by
  induction l generalizing m with
  | nil => rfl
  | cons kv t ih =>
    show overlayEnv (updD m kv.1 kv.2) t k = _
    rw [ih]
    rw [dictGet]
    cases hd : dictGet t k with
    | some v => rfl
    | none =>
      dsimp only
      by_cases hk : kv.1 = k
      · rw [if_pos hk]
        show updD m kv.1 kv.2 k = some kv.2
        unfold updD
        rw [if_pos hk.symm]
      · rw [if_neg hk]
        show updD m kv.1 kv.2 k = m k
        unfold updD
        rw [if_neg (fun e => hk e.symm)]

theorem fileMap_skip (file_vals : List (String × Option String)) (k : String)
    (m : String → Option String)
    (h : ∀ p ∈ file_vals, p.1 = k → p.2 = none) (hm : m k = none) :
    (file_vals.foldl
      (fun m kv =>
        match kv.2 with
        | some v => updD m kv.1 v
        | none => m)
      m) k = none := by
  induction file_vals generalizing m with
  | nil => exact hm
  | cons p t ih =>
    rw [List.foldl_cons]
    cases hp2 : p.2 with
    | none =>
      exact ih m (fun q hq e => h q (List.mem_cons_of_mem p hq) e) hm
    | some v =>
      have hk : ¬(p.1 = k) := by
        intro e
        have := h p (List.mem_cons_self p t) e
        rw [hp2] at this
        cases this
      refine ih (updD m p.1 v) (fun q hq e => h q (List.mem_cons_of_mem p hq) e) ?_
      unfold updD
      rw [if_neg (fun e => hk e.symm)]
      exact hm

theorem pyStripList_pad (l : List Char) :
    pyStripList (' ' :: (l ++ [' '])) = pyStripList l := by
  unfold pyStripList
  rw [List.dropWhile_cons_of_pos (by decide)]
  rw [List.dropWhile_append]
  cases hd : (l.dropWhile pyWS).isEmpty
  · rw [if_neg (by simp)]
    rw [List.reverse_append]
    show (List.dropWhile pyWS (' ' :: (l.dropWhile pyWS).reverse)).reverse = _
    rw [List.dropWhile_cons_of_pos (by decide)]
  · rw [if_pos rfl]
    have hnil : l.dropWhile pyWS = [] := by
      cases he : l.dropWhile pyWS with
      | nil => rfl
      | cons c t =>
        rw [he] at hd
        simp at hd
    rw [hnil]
    rw [show List.dropWhile pyWS [' '] = ([] : List Char) from by decide]

theorem pyStrip_pad (s : String) : pyStrip ((" ") ++ s ++ (" ")) = pyStrip s := by
  unfold pyStrip
  have hd : ((" ") ++ s ++ (" ")).data = ' ' :: (s.data ++ [' ']) := by
    rw [String.data_append, String.data_append]
    rfl
  rw [hd, pyStripList_pad]

theorem load_ok_envfile (ctx : LoadCtx) (env_file : Option String) :
    ∃ r, BotConfig.load ctx env_file = Except.ok r ∧ r.ENV_FILE = envPathOf ctx env_file := by
  simp only [BotConfig.load]
  split
  next e h =>
    exfalso
    repeat' split at h
    all_goals simp_all
  next fl h =>
    exact ⟨_, rfl, rfl⟩

/-- C1: for every context (any file system, any dotenv parse outcome
including a raised parse error, any environment, any CPU count) and any
explicit path argument, `BotConfig.load` returns a fully-populated
`BotConfig` record and never propagates an exception to the caller. -/
theorem load_never_raises (ctx : LoadCtx) (env_file : Option String) :
    ∃ r, BotConfig.load ctx env_file = Except.ok r := by
  obtain ⟨r, hr, -⟩ := load_ok_envfile ctx env_file
  exact ⟨r, hr⟩

/-- C2: for every key bound in the process environment, the merged mapping
built from the dotenv file layer and the environment overlay holds the
environment's value, regardless of what the file provided for that key. -/
theorem env_overrides_file (file_vals : List (String × Option String))
    (environ : List (String × String)) (k v : String)
    (h : dictGet environ k = some v) :
    overlayEnv (fileMap file_vals) environ k = some v := by
  rw [overlay_lookup, h]

theorem env_overrides_file_witness :
    dictGet [(("WORKDIR"), ("envdir"))] ("WORKDIR") = some ("envdir") ∧
    overlayEnv (fileMap [(("WORKDIR"), some ("filedir"))]) [(("WORKDIR"), ("envdir"))]
      ("WORKDIR") = some ("envdir") :=
  ⟨by decide,
   env_overrides_file [(("WORKDIR"), some ("filedir"))] [(("WORKDIR"), ("envdir"))]
     ("WORKDIR") ("envdir") (by decide)⟩

/-- C4: boolean coercion matches the stripped, lower-cased value against the
fixed truthy set (giving `true`) and the fixed falsy set (giving `false`);
any other value, and an absent key, give the field's default. -/
theorem bool_coercion_cases (v : String) (d : Bool) :
    _to_bool none d = d ∧
    (pyLower (pyStrip v) ∈ [("1"), ("true"), ("yes"), ("y"), ("on")] →
      _to_bool (some v) d = true) ∧
    (pyLower (pyStrip v) ∈ [("0"), ("false"), ("no"), ("n"), ("off")] →
      _to_bool (some v) d = false) ∧
    (pyLower (pyStrip v) ∉ [("1"), ("true"), ("yes"), ("y"), ("on")] →
      pyLower (pyStrip v) ∉ [("0"), ("false"), ("no"), ("n"), ("off")] →
      _to_bool (some v) d = d) := by
  refine ⟨rfl, ?_, ?_, ?_⟩
  · intro h
    simp only [_to_bool]
    rw [if_pos h]
  · intro h
    have ht : pyLower (pyStrip v) ∉ [("1"), ("true"), ("yes"), ("y"), ("on")] := by
      simp only [List.mem_cons, List.not_mem_nil, or_false] at h
      rcases h with h | h | h | h | h <;> rw [h] <;> decide
    simp only [_to_bool]
    rw [if_neg ht, if_pos h]
  · intro ht hf
    simp only [_to_bool]
    rw [if_neg ht, if_neg hf]

theorem bool_coercion_cases_witness :
    _to_bool (some ("YES")) false = true ∧
    _to_bool (some (" Off ")) true = false ∧
    _to_bool (some ("maybe")) true = true :=
  ⟨(bool_coercion_cases ("YES") false).2.1 (by decide),
   (bool_coercion_cases (" Off ") true).2.2.1 (by decide),
   (bool_coercion_cases ("maybe") true).2.2.2 (by decide) (by decide)⟩

/-- C5: integer coercion parses the merged value as a base-10 integer (the
semantics of a digit string is its decimal value); on an absent key or a
value `int` rejects — in particular any string with no digit at all — the
field's default is used. -/
theorem int_coercion_cases (v : String) (d : Int) :
    _to_int none d = d ∧
    (∀ n : Int, pyInt (pyStrip v) = some n → _to_int (some v) d = n) ∧
    (pyInt (pyStrip v) = none → _to_int (some v) d = d) ∧
    ((∀ c ∈ v.data, c.isDigit = false) → _to_int (some v) d = d) ∧
    (v.data ≠ [] → (∀ c ∈ v.data, c.isDigit = true) →
      _to_int (some v) d = ((v.data.foldl (fun a c => 10 * a + digitVal c) 0 : Nat) : Int)) := by
  refine ⟨rfl, ?_, ?_, ?_, ?_⟩
  · intro n h
    simp only [_to_int]
    rw [h]
  · intro h
    simp only [_to_int]
    rw [h]
  · intro h
    simp only [_to_int]
    have hn : pyInt (pyStrip v) = none := by
      show pyInt ⟨pyStripList v.data⟩ = none
      exact pyInt_no_digits (pyStripList v.data)
        (fun c hc => h c (pyStripList_subset v.data c hc))
    rw [hn]
  · intro hne hdig
    obtain ⟨l⟩ := v
    simp only [_to_int]
    have hstrip : pyStrip ⟨l⟩ = ⟨l⟩ := by
      show (⟨pyStripList l⟩ : String) = (⟨l⟩ : String)
      rw [pyStripList_eq_self l (fun c hc => digit_not_ws c (hdig c hc))]
    rw [hstrip, pyInt_all_digits l hne hdig]

theorem int_coercion_cases_witness :
    _to_int (some ("37")) 0 = 37 ∧
    _to_int (some (" 42 ")) 0 = 42 ∧
    _to_int (some ("x7")) 5 = 5 ∧
    _to_int (some ("abc")) 2 = 2 ∧
    _to_int none 3 = 3 :=
  ⟨Eq.trans ((int_coercion_cases ("37") 0).2.2.2.2 (by decide) (by decide)) (by decide),
   (int_coercion_cases (" 42 ") 0).2.1 42 (by decide),
   (int_coercion_cases ("x7") 5).2.2.1 (by decide),
   (int_coercion_cases ("abc") 2).2.2.2.1 (by decide),
   (int_coercion_cases ("0") 3).1⟩

/-- C10: both coercion helpers strip surrounding whitespace before
interpreting the value, so a space-padded value coerces identically to the
unpadded one, for the boolean and the integer helper alike. -/
theorem coercion_strips_padding (s : String) (d : Bool) (di : Int) :
    _to_bool (some ((" ") ++ s ++ (" "))) d = _to_bool (some s) d ∧
    _to_int (some ((" ") ++ s ++ (" "))) di = _to_int (some s) di := by
  constructor
  · simp only [_to_bool]
    rw [pyStrip_pad]
  · simp only [_to_int]
    rw [pyStrip_pad]

/-- C7: `to_script_env` produces exactly the seven advertised keys, in
order, with string fields verbatim, booleans rendered exactly as
"true"/"false", and the thread count as its decimal representation. -/
theorem to_script_env_fields (c : BotConfig) :
    BotConfig.to_script_env c = scriptEnvSpec c ∧
    (BotConfig.to_script_env c).map Prod.fst =
      [("AXION_REMOTE_URL"), ("AXION_BRANCH"), ("WORKDIR"), ("THREADS"),
       ("WITH_MIUI_CAM"), ("APPLY_WPA_PATCHES"), ("BUILD_VOLUME_DEVICE")] :=
  ⟨rfl, rfl⟩

/-- C9: a dotenv entry whose parsed value is `None` is dropped before the
merge: the file layer does not bind its key at all, so the merged mapping
gives exactly what the environment gives for that key (and the coercion
default applies when the environment does not bind it either). -/
theorem none_valued_entries_dropped (file_vals : List (String × Option String))
    (environ : List (String × String)) (k : String)
    (h : ∀ p ∈ file_vals, p.1 = k → p.2 = none) :
    fileMap file_vals k = none ∧
    overlayEnv (fileMap file_vals) environ k = dictGet environ k := by
  have h1 : fileMap file_vals k = none := fileMap_skip file_vals k (fun _ => none) h rfl
  refine ⟨h1, ?_⟩
  rw [overlay_lookup]
  cases hd : dictGet environ k with
  | some v => rfl
  | none => exact h1

theorem none_valued_entries_dropped_witness :
    fileMap [(("THREADS"), none)] ("THREADS") = none ∧
    overlayEnv (fileMap [(("THREADS"), none)]) [(("THREADS"), ("5"))] ("THREADS") =
      dictGet [(("THREADS"), ("5"))] ("THREADS") :=
  none_valued_entries_dropped [(("THREADS"), none)] [(("THREADS"), ("5"))] ("THREADS")
    (by decide)

/-- C8: once `load` has returned a record, the component's operations leave
every field unchanged (methods are embedded state-passingly, returning the
receiver after the call), and `as_dict` exhibits a defined, typed value for
each of the 27 fields. -/
theorem record_operations_preserve_fields (ctx : LoadCtx) (env_file : Option String)
    (r : BotConfig) (h : BotConfig.load ctx env_file = Except.ok r) :
    (BotConfig.to_script_envS r).2 = r ∧ (BotConfig.as_dictS r).2 = r ∧
    (BotConfig.as_dictS r).1.length = 27 :=
  ⟨rfl, rfl, rfl⟩

theorem record_operations_preserve_fields_witness :
    (BotConfig.to_script_envS (BotConfig.default (some 4))).2 = BotConfig.default (some 4) ∧
    (BotConfig.as_dictS (BotConfig.default (some 4))).2 = BotConfig.default (some 4) ∧
    (BotConfig.as_dictS (BotConfig.default (some 4))).1.length = 27 :=
  record_operations_preserve_fields ctxNoSources none (BotConfig.default (some 4)) (by rfl)

/-- C3: with no file on disk and an empty process environment, `load`
returns exactly the declared static defaults for every field, with
`THREADS` equal to the host CPU count, or 8 when the count is
unavailable. -/
theorem defaults_when_no_sources (ctx : LoadCtx)
    (hfs : ∀ p, ctx.isfile p = false) (henv : ctx.environ = []) :
    BotConfig.load ctx none = Except.ok (BotConfig.default ctx.cpuCount) ∧
    (BotConfig.default ctx.cpuCount).RUN_ENV_SETUP = true ∧
    (BotConfig.default ctx.cpuCount).RUN_SOURCE_SYNC = true ∧
    (BotConfig.default ctx.cpuCount).RUN_BUILD = false ∧
    (BotConfig.default ctx.cpuCount).DRY_RUN = false ∧
    (BotConfig.default ctx.cpuCount).AXION_REMOTE_URL =
      "https://github.com/AxionAOSP/android.git" ∧
    (BotConfig.default ctx.cpuCount).AXION_BRANCH = "lineage-23.0" ∧
    (BotConfig.default ctx.cpuCount).WORKDIR = "axionos" ∧
    (BotConfig.default ctx.cpuCount).WITH_MIUI_CAM = false ∧
    (BotConfig.default ctx.cpuCount).APPLY_WPA_PATCHES = false ∧
    (BotConfig.default ctx.cpuCount).BUILD_VOLUME_DEVICE = "" ∧
    (BotConfig.default ctx.cpuCount).USE_SAFE_BUILD = true ∧
    (BotConfig.default ctx.cpuCount).DEVICE = "xaga" ∧
    (BotConfig.default ctx.cpuCount).VARIANT = "userdebug" ∧
    (BotConfig.default ctx.cpuCount).ROM_TYPE = "axion-pico" ∧
    (BotConfig.default ctx.cpuCount).CONFIG_OFFICIAL_FLAG = "" ∧
    (BotConfig.default ctx.cpuCount).CONFIG_CHATID = "" ∧
    (BotConfig.default ctx.cpuCount).CONFIG_BOT_TOKEN = "" ∧
    (BotConfig.default ctx.cpuCount).CONFIG_ERROR_CHATID = "" ∧
    (BotConfig.default ctx.cpuCount).RCLONE_REMOTE = "" ∧
    (BotConfig.default ctx.cpuCount).RCLONE_FOLDER = "" ∧
    (BotConfig.default ctx.cpuCount).PIXELDRAIN_API_KEY = "" ∧
    (BotConfig.default ctx.cpuCount).POWEROFF = false ∧
    (BotConfig.default ctx.cpuCount).UPLOAD_OTA_JSON = true ∧
    (BotConfig.default ctx.cpuCount).OTA_JSON_PATH = "vendor/ota/your_device_name.json" ∧
    (BotConfig.default ctx.cpuCount).PIN_SUCCESS_MESSAGE = true ∧
    (BotConfig.default ctx.cpuCount).ENV_FILE = ".env" ∧
    (ctx.cpuCount = none → (BotConfig.default ctx.cpuCount).THREADS = 8) ∧
    (∀ n : Nat, ctx.cpuCount = some n → 0 < n →
      (BotConfig.default ctx.cpuCount).THREADS = (n : Int)) := by
  refine ⟨?_, rfl, rfl, rfl, rfl, rfl, rfl, rfl, rfl, rfl, rfl, rfl, rfl, rfl, rfl, rfl,
    rfl, rfl, rfl, rfl, rfl, rfl, rfl, rfl, rfl, rfl, rfl, ?_, ?_⟩
  · simp [BotConfig.load, henv, hfs]
    rfl
  · intro h
    rw [h]
    rfl
  · intro n hn hp
    rw [hn]
    show cpuDefault (some n) = (n : Int)
    unfold cpuDefault
    dsimp only
    rw [if_neg (Nat.pos_iff_ne_zero.mp hp)]

theorem defaults_when_no_sources_witness :
    BotConfig.load ctxNoSources none = Except.ok (BotConfig.default (some 4)) ∧
    (BotConfig.default (some 4)).THREADS = 4 :=
  ⟨(defaults_when_no_sources ctxNoSources (fun _ => rfl) rfl).1,
   (defaults_when_no_sources ctxNoSources (fun _ => rfl) rfl).2.2.2.2.2.2.2.2.2.2.2.2.2.2.2.2.2.2.2.2.2.2.2.2.2.2.2.2
     4 rfl (by decide)⟩

/-- C6, counterexample: with the explicit argument `""`, an empty
environment, and a file system on which only `.env_xaga` exists, the
claim's resolution order yields `""` (the explicit argument was given, and
the `.env` branch was never reached), yet the loaded record's `ENV_FILE` is
`.env_xaga` — the code treats the empty argument as absent and applies the
`.env_xaga` replacement to whatever path was resolved, not only to the
default one. -/
theorem path_resolution_counterexample :
    claimedEnvPath (some ("")) [] fsXagaOnly = "" ∧
    ctxXagaOnly.environ = [] ∧
    ctxXagaOnly.isfile = fsXagaOnly ∧
    loadedEnvFile ctxXagaOnly (some ("")) = some (".env_xaga") ∧
    loadedEnvFile ctxXagaOnly (some ("")) ≠
      some (claimedEnvPath (some ("")) [] fsXagaOnly) :=
  ⟨rfl, rfl, rfl, rfl, by decide⟩

theorem envPathOf_eq_amended (ctx : LoadCtx) (env_file : Option String) :
    envPathOf ctx env_file = amendedEnvPath env_file ctx.environ ctx.isfile := by
  have hb : pyOrS env_file (pyOrS (dictGet ctx.environ ("ENV_FILE")) (".env")) =
      (match env_file with
       | some p =>
         if p = "" then
           (match dictGet ctx.environ ("ENV_FILE") with
            | some q => if q = "" then ".env" else q
            | none => ".env")
         else p
       | none =>
         match dictGet ctx.environ ("ENV_FILE") with
         | some q => if q = "" then ".env" else q
         | none => ".env") := by
    cases env_file with
    | none =>
      cases dictGet ctx.environ ("ENV_FILE") with
      | none => rfl
      | some q =>
        by_cases hq : q = "" <;> simp [pyOrS, hq]
    | some p =>
      by_cases hp : p = ""
      · cases dictGet ctx.environ ("ENV_FILE") with
        | none => simp [pyOrS, hp]
        | some q =>
          by_cases hq : q = "" <;> simp [pyOrS, hp, hq]
      · simp [pyOrS, hp]
  unfold envPathOf amendedEnvPath
  dsimp only
  rw [hb]

/-- C6, amended: the effective path is the explicit argument if given and
non-empty, else the `ENV_FILE` environment variable if set and non-empty,
else `.env`; then, if the resolved path (whatever its origin) does not name
an existing file and `.env_xaga` exists, `.env_xaga` is used instead; the
record's `ENV_FILE` field always equals the path actually used. -/
theorem path_resolution_amended (ctx : LoadCtx) (env_file : Option String) :
    loadedEnvFile ctx env_file = some (amendedEnvPath env_file ctx.environ ctx.isfile) := by
  obtain ⟨r, hr, he⟩ := load_ok_envfile ctx env_file
  unfold loadedEnvFile
  rw [hr]
  dsimp only
  rw [he, envPathOf_eq_amended]


